import Mathlib

/-!
Shallow embedding of the COMPASS Sentinel-1 CSLC orchestration layer
(`src/compass/s1_cslc.py`, `s1_geo2rdr.py`, `s1_geocode_slc.py`,
`s1_geocode_metadata.py`, `utils/lut.py`).

The repository is sequencing glue around an opaque external geometry engine
(isce3).  We embed the control flow of each stage wrapper as a pure function
from a configuration record to the ordered list of observable events it
performs: directory creations, file writes, and engine invocations.  Engine
calls that may fail are modelled through an oracle `engine : ... → Except ...`
supplied as a parameter; the wrappers contain no handlers, so an engine error
aborts the remaining iterations exactly as a raised Python exception would.

Numeric fields that are floats in the original code (grid origins, spacings,
LUT values) are modelled as `Int`/`Rat`: no claim here depends on float
rounding, only on which fields are read, copied or compared.
-/

namespace Compass

/-- A Sentinel-1 burst as seen by these wrappers: the identity fields the
wrappers read (`burst.burst_id`, `burst.sensing_start.strftime("%Y%m%d")`,
`burst.polarization`) plus `ipf_version`, which `s1_geocode_slc.run` feeds to
the external `is_eap_correction_necessary` check.  All other burst content
(orbit, radar grid, calibration) is consumed opaquely by the engine and does
not influence the wrappers' control flow or paths. -/
structure Burst where
  burst_id : String
  date_str : String
  polarization : String
  ipf_version : Nat
  deriving DecidableEq, Repr

/-- The three stages `s1_cslc.run` can invoke. -/
inductive CslcStage
  | rdr2geo
  | geo2rdr
  | resample
  deriving DecidableEq, Repr

/-- Configuration as consumed by `s1_cslc.run`: only `is_reference` is read
there; the rest of the runconfig is passed through to the stages. -/
structure CslcConfig where
  is_reference : Bool
  scratch_path : String
  dem : String
  bursts : List Burst
  deriving Repr

/-- `s1_cslc.run` (s1_cslc.py lines 6-13): dispatch on `cfg.is_reference`;
the returned list is the ordered sequence of stage invocations. -/
def s1_cslc_run (cfg : CslcConfig) : List CslcStage :=
  if cfg.is_reference then
    [CslcStage.rdr2geo]
  else
    [CslcStage.geo2rdr, CslcStage.resample]

/-- Observable events of `s1_geo2rdr.run`: directory creation
(`os.makedirs(..., exist_ok=True)`), geo2rdr engine-object construction
(`geo2rdr(rdr_grid, orbit, ellipsoid, ...)`) and the engine method call
(`geo2rdr_obj.geo2rdr(topo_raster, burst_output_path)`). -/
inductive G2REvent
  | makedirs (path : String)
  | engineInit (burst_id date_str : String)
  | engineCall (burst_id date_str : String)
  deriving DecidableEq, Repr

/-- Configuration fields of the runconfig that `s1_geo2rdr.run` reads. -/
structure Geo2rdrConfig where
  scratch_path : String
  dem : String
  reference_path : String
  threshold : Rat
  numiter : Nat
  lines_per_block : Nat
  bursts : List Burst
  deriving Repr

/-- The burst loop of `s1_geo2rdr.run` (s1_geo2rdr.py lines 50-88).
`engine` is the oracle for the external `geo2rdr_obj.geo2rdr` call on a
(burst id, date) pair; the wrapper has no handler, so an engine error ends
the loop with that error, exactly as the raised Python exception would.
Returns the event trace together with the propagated error, if any. -/
def geo2rdrLoop {ε : Type} (engine : String × String → Except ε Unit)
    (scratch_path : String) :
    List Burst → List (String × String) → List G2REvent × Option ε
  | [], _ => ([], none)
  | burst :: rest, id_dates_processed =>
    let burst_id := burst.burst_id
    let date_str := burst.date_str
    let id_date := (burst_id, date_str)
    let top_output_path := scratch_path ++ "/" ++ burst_id
    -- `os.makedirs(top_output_path, exist_ok=True)` happens before the
    -- duplicate check, for every burst in the list.
    if id_date ∈ id_dates_processed then
      let r := geo2rdrLoop engine scratch_path rest id_dates_processed
      (G2REvent.makedirs top_output_path :: r.1, r.2)
    else
      let burst_output_path := top_output_path ++ "/" ++ date_str
      match engine id_date with
      | Except.error e =>
        ([G2REvent.makedirs top_output_path,
          G2REvent.makedirs burst_output_path,
          G2REvent.engineInit burst_id date_str,
          G2REvent.engineCall burst_id date_str], some e)
      | Except.ok _ =>
        let r := geo2rdrLoop engine scratch_path rest
          (id_dates_processed ++ [id_date])
        (G2REvent.makedirs top_output_path ::
          G2REvent.makedirs burst_output_path ::
          G2REvent.engineInit burst_id date_str ::
          G2REvent.engineCall burst_id date_str :: r.1, r.2)

/-- `s1_geo2rdr.run`: the loop starting from the empty
`id_dates_processed` list. -/
def s1_geo2rdr_run {ε : Type} (engine : String × String → Except ε Unit)
    (cfg : Geo2rdrConfig) : List G2REvent × Option ε :=
  geo2rdrLoop engine cfg.scratch_path cfg.bursts []

/-- The (burst id, date) pairs on which the trace invoked the engine method. -/
def engineCallPairs (evs : List G2REvent) : List (String × String) :=
  evs.filterMap fun e =>
    match e with
    | G2REvent.engineCall b d => some (b, d)
    | _ => none

/-- The (burst id, date) pairs for which the trace constructed an engine
object. -/
def engineInitPairs (evs : List G2REvent) : List (String × String) :=
  evs.filterMap fun e =>
    match e with
    | G2REvent.engineInit b d => some (b, d)
    | _ => none

/-- The paths passed to `os.makedirs` in the trace, in order. -/
def makedirsPaths (evs : List G2REvent) : List String :=
  evs.filterMap fun e =>
    match e with
    | G2REvent.makedirs p => some p
    | _ => none

/-- The deduplicated (burst id, date) sequence the loop would process,
starting from an already-processed list: one entry per pair, first
occurrence order.  This is the reference trace the loop is proved against. -/
def dedupPairs (processed : List (String × String)) :
    List Burst → List (String × String)
  | [] => []
  | b :: bs =>
    let id_date := (b.burst_id, b.date_str)
    if id_date ∈ processed then dedupPairs processed bs
    else id_date :: dedupPairs (processed ++ [id_date]) bs

/-- Model of `os.makedirs(path, exist_ok=True)` on a file system modelled as
the list of existing directories: creating an existing path leaves the file
system unchanged; the operation is total (it never raises). -/
def makedirs (fs : List String) (path : String) : List String :=
  if path ∈ fs then fs else path :: fs

/-- How many steps of a makedirs sequence bring `p` into existence, starting
from file system `fs`. -/
def creationCount (fs : List String) : List String → String → Nat
  | [], _ => 0
  | q :: rest, p =>
    (if p ∉ fs ∧ p ∈ makedirs fs q then 1 else 0) +
      creationCount (makedirs fs q) rest p

@[simp]
theorem engineCallPairs_nil : engineCallPairs [] = [] := rfl

@[simp]
theorem engineCallPairs_cons_makedirs (p : String) (evs : List G2REvent) :
    engineCallPairs (G2REvent.makedirs p :: evs) = engineCallPairs evs := rfl

@[simp]
theorem engineCallPairs_cons_init (b d : String) (evs : List G2REvent) :
    engineCallPairs (G2REvent.engineInit b d :: evs) = engineCallPairs evs := rfl

@[simp]
theorem engineCallPairs_cons_call (b d : String) (evs : List G2REvent) :
    engineCallPairs (G2REvent.engineCall b d :: evs) =
      (b, d) :: engineCallPairs evs := rfl

@[simp]
theorem engineInitPairs_nil : engineInitPairs [] = [] := rfl

@[simp]
theorem engineInitPairs_cons_makedirs (p : String) (evs : List G2REvent) :
    engineInitPairs (G2REvent.makedirs p :: evs) = engineInitPairs evs := rfl

@[simp]
theorem engineInitPairs_cons_init (b d : String) (evs : List G2REvent) :
    engineInitPairs (G2REvent.engineInit b d :: evs) =
      (b, d) :: engineInitPairs evs := rfl

@[simp]
theorem engineInitPairs_cons_call (b d : String) (evs : List G2REvent) :
    engineInitPairs (G2REvent.engineCall b d :: evs) = engineInitPairs evs := rfl

@[simp]
theorem makedirsPaths_nil : makedirsPaths [] = [] := rfl

@[simp]
theorem makedirsPaths_cons_makedirs (p : String) (evs : List G2REvent) :
    makedirsPaths (G2REvent.makedirs p :: evs) = p :: makedirsPaths evs := rfl

@[simp]
theorem makedirsPaths_cons_init (b d : String) (evs : List G2REvent) :
    makedirsPaths (G2REvent.engineInit b d :: evs) = makedirsPaths evs := rfl

@[simp]
theorem makedirsPaths_cons_call (b d : String) (evs : List G2REvent) :
    makedirsPaths (G2REvent.engineCall b d :: evs) = makedirsPaths evs := rfl

/-- The loop constructs an engine object for exactly the pairs on which it
invokes the engine method. -/
theorem engineInitPairs_geo2rdrLoop {ε : Type}
    (engine : String × String → Except ε Unit) (sp : String)
    (bs : List Burst) (p : List (String × String)) :
    engineInitPairs (geo2rdrLoop engine sp bs p).1 =
      engineCallPairs (geo2rdrLoop engine sp bs p).1 := by
  induction bs generalizing p with
  | nil => rfl
  | cons b rest ih =>
    simp only [geo2rdrLoop]
    split
    · simpa using ih p
    · cases hengine : engine (b.burst_id, b.date_str) with
      | error e => simp
      | ok u => simpa using ih (p ++ [(b.burst_id, b.date_str)])

/-- When the loop finishes without an engine error, the engine was invoked
exactly on the deduplicated pair sequence, and every one of those invocations
succeeded. -/
theorem geo2rdrLoop_ok {ε : Type} (engine : String × String → Except ε Unit)
    (sp : String) (bs : List Burst) (p : List (String × String))
    (h : (geo2rdrLoop engine sp bs p).2 = none) :
    engineCallPairs (geo2rdrLoop engine sp bs p).1 = dedupPairs p bs ∧
      ∀ c ∈ dedupPairs p bs, engine c = Except.ok () := by
  induction bs generalizing p with
  | nil => simp [geo2rdrLoop, dedupPairs]
  | cons b rest ih =>
    by_cases hmem : (b.burst_id, b.date_str) ∈ p
    · simp only [geo2rdrLoop, dedupPairs, if_pos hmem] at h ⊢
      obtain ⟨h1, h2⟩ := ih p h
      exact ⟨by simpa using h1, h2⟩
    · cases hengine : engine (b.burst_id, b.date_str) with
      | error e =>
        simp only [geo2rdrLoop, if_neg hmem, hengine] at h
        exact absurd h (by simp)
      | ok u =>
        simp only [geo2rdrLoop, dedupPairs, if_neg hmem, hengine] at h ⊢
        obtain ⟨h1, h2⟩ := ih (p ++ [(b.burst_id, b.date_str)]) h
        refine ⟨by simpa using h1, ?_⟩
        intro c hc
        rcases List.mem_cons.mp hc with rfl | hc
        · cases u; exact hengine
        · exact h2 c hc

/-- When the loop ends with an engine error, the error propagates unmodified,
the invocations made form the prefix of the deduplicated pair sequence up to
and including the failing pair, every earlier invocation succeeded, and no
pair after the failing one is invoked. -/
theorem geo2rdrLoop_err {ε : Type} (engine : String × String → Except ε Unit)
    (sp : String) (bs : List Burst) (p : List (String × String)) (e : ε)
    (h : (geo2rdrLoop engine sp bs p).2 = some e) :
    ∃ pre fail post,
      dedupPairs p bs = pre ++ fail :: post ∧
      engineCallPairs (geo2rdrLoop engine sp bs p).1 = pre ++ [fail] ∧
      engine fail = Except.error e ∧
      ∀ c ∈ pre, engine c = Except.ok () := by
  induction bs generalizing p with
  | nil => simp [geo2rdrLoop] at h
  | cons b rest ih =>
    by_cases hmem : (b.burst_id, b.date_str) ∈ p
    · simp only [geo2rdrLoop, if_pos hmem] at h ⊢
      obtain ⟨pre, fail, post, h1, h2, h3, h4⟩ := ih p h
      exact ⟨pre, fail, post, by simp [dedupPairs, if_pos hmem, h1],
        by simpa using h2, h3, h4⟩
    · cases hengine : engine (b.burst_id, b.date_str) with
      | error e' =>
        simp only [geo2rdrLoop, if_neg hmem, hengine] at h ⊢
        obtain rfl : e' = e := by simpa using h
        refine ⟨[], (b.burst_id, b.date_str),
          dedupPairs (p ++ [(b.burst_id, b.date_str)]) rest, ?_, by simp,
          hengine, by simp⟩
        simp [dedupPairs, if_neg hmem]
      | ok u =>
        simp only [geo2rdrLoop, if_neg hmem, hengine] at h ⊢
        obtain ⟨pre, fail, post, h1, h2, h3, h4⟩ :=
          ih (p ++ [(b.burst_id, b.date_str)]) h
        refine ⟨(b.burst_id, b.date_str) :: pre, fail, post, ?_, ?_, h3, ?_⟩
        · simp [dedupPairs, if_neg hmem, h1]
        · simpa using h2
        · intro c hc
          rcases List.mem_cons.mp hc with rfl | hc
          · cases u; exact hengine
          · exact h4 c hc

/-- Appending the deduplicated pairs to the processed list preserves
`Nodup`. -/
theorem dedupPairs_nodup_append (bs : List Burst)
    (p : List (String × String)) (hp : p.Nodup) :
    (p ++ dedupPairs p bs).Nodup := by
  induction bs generalizing p with
  | nil => simpa [dedupPairs]
  | cons b rest ih =>
    simp only [dedupPairs]
    split
    · exact ih p hp
    · rename_i hmem
      have h := ih (p ++ [(b.burst_id, b.date_str)])
        (by simp [List.nodup_append, hp, hmem])
      simpa [List.append_assoc] using h

/-- The pairs each full run invokes the engine on never repeat. -/
theorem engineCallPairs_nodup {ε : Type}
    (engine : String × String → Except ε Unit) (cfg : Geo2rdrConfig) :
    (engineCallPairs (s1_geo2rdr_run engine cfg).1).Nodup := by
  have hdedup : (dedupPairs [] cfg.bursts).Nodup := by
    simpa using dedupPairs_nodup_append cfg.bursts [] List.nodup_nil
  cases h : (s1_geo2rdr_run engine cfg).2 with
  | none =>
    obtain ⟨h1, _⟩ := geo2rdrLoop_ok engine cfg.scratch_path cfg.bursts [] h
    rw [s1_geo2rdr_run, h1]
    exact hdedup
  | some e =>
    obtain ⟨pre, fail, post, h1, h2, _, _⟩ :=
      geo2rdrLoop_err engine cfg.scratch_path cfg.bursts [] e h
    rw [s1_geo2rdr_run, h2]
    have hsub : List.Sublist (pre ++ [fail]) (dedupPairs [] cfg.bursts) := by
      rw [h1]
      exact (List.Sublist.cons₂ fail (List.nil_sublist post)).append_left pre
    exact hdedup.sublist hsub

/-- When every remaining burst's pair is already processed, the loop makes no
further engine calls and succeeds. -/
theorem geo2rdrLoop_all_processed {ε : Type}
    (engine : String × String → Except ε Unit) (sp : String)
    (bs : List Burst) (p : List (String × String))
    (hall : ∀ b ∈ bs, (b.burst_id, b.date_str) ∈ p) :
    engineCallPairs (geo2rdrLoop engine sp bs p).1 = [] ∧
      (geo2rdrLoop engine sp bs p).2 = none := by
  induction bs with
  | nil => simp [geo2rdrLoop]
  | cons b rest ih =>
    have hmem : (b.burst_id, b.date_str) ∈ p := hall b (List.mem_cons_self b rest)
    have h := ih (fun b' hb' => hall b' (List.mem_cons_of_mem b hb'))
    simp only [geo2rdrLoop, if_pos hmem]
    exact ⟨by simpa using h.1, h.2⟩

/-- Output grid definition per burst (`cfg.geogrids[burst_id]`), as read by
the geocoding stages.  Coordinates are floats in the source; no claim here
depends on float rounding, so they are modelled as `Int`. -/
structure GeoGrid where
  start_x : Int
  start_y : Int
  spacing_x : Int
  spacing_y : Int
  width : Nat
  length : Nat
  epsg : Nat
  deriving DecidableEq, Repr

/-- Observable events of `s1_geocode_slc.run`.  `rdr2geoNested` stands for
the nested `s1_rdr2geo.run(cfg, save_in_scratch=True)` invocation whose body
lives outside the embedded wrappers; `splitSpectrum` for the external
`range_split_spectrum` call; `setGeotransform` records the geotransform list
and EPSG written to the output raster (both read from the burst's GeoGrid and
the DEM). -/
inductive GSEvent
  | makedirs (path : String)
  | rdr2geoNested
  | vrtWrite (path : String)
  | eapCorrect (src dst : String)
  | splitSpectrum (scratch : String)
  | rasterCreate (path : String) (width length : Nat)
  | geocodeSlcCall (burst_id date_str pol : String)
  | setGeotransform (gt : List Int) (epsg : Nat)
  | jsonWrite (path : String)
  deriving DecidableEq, Repr

/-- Python runtime errors this repository's own code raises during the
geocode_slc loop: the `TypeError` from calling `s1_geocode_metadata.run`
without its required positional `burst` argument. -/
inductive PyError
  | typeError (msg : String)
  deriving DecidableEq, Repr

/-- Configuration fields of the GeoRunConfig that `s1_geocode_slc.run`
reads.  `dem_epsg` models the EPSG code the DEM raster reports. -/
structure GeoRunConfig where
  product_path : String
  scratch_path : String
  dem : String
  dem_epsg : Nat
  geogrids : String → GeoGrid
  rdr2geo_enabled : Bool
  geocode_metadata_layers : Bool
  split_spectrum_enabled : Bool
  flatten : Bool
  output_format : String
  threshold : Rat
  numiter : Nat
  lines_per_block : Nat
  bursts : List Burst

/-- One iteration of the burst loop of `s1_geocode_slc.run`
(s1_geocode_slc.py lines 50-146), returning its events together with the
error it raises, if any.  `check_eap` models the external
`is_eap_correction_necessary(burst.ipf_version).phase_correction` decision.
When both `rdr2geo_params.enabled` and
`rdr2geo_params.geocode_metadata_layers` are set, line 82 of the source
calls `s1_geocode_metadata.run(cfg, fetch_from_scratch=True)`, which lacks
the required positional `burst` argument of `s1_geocode_metadata.run`
(s1_geocode_metadata.py line 21): binding fails, so the iteration raises
`TypeError` right there — after the directory creations and the nested
rdr2geo run, before the VRT, EAP, split-spectrum, raster, engine and JSON
steps.  Python's `temp_slc_path.replace('_temp.vrt', '_corrected_temp.rdr')`
is embedded as direct construction of the corrected path, which coincides
with `replace` on these paths. -/
def geocodeSlcBurst (check_eap : Nat → Bool) (cfg : GeoRunConfig)
    (burst : Burst) : List GSEvent × Option PyError :=
  let date_str := burst.date_str
  let burst_id := burst.burst_id
  let pol := burst.polarization
  let id_pol := burst_id ++ "_" ++ pol
  let geo_grid := cfg.geogrids burst_id
  let burst_output_path := cfg.product_path ++ "/" ++ burst_id ++ "/" ++ date_str
  let scratch_path := cfg.scratch_path ++ "/" ++ burst_id ++ "/" ++ date_str
  let headEvents :=
    [GSEvent.makedirs burst_output_path, GSEvent.makedirs scratch_path]
  let temp_slc_path := scratch_path ++ "/" ++ id_pol ++ "_temp.vrt"
  let eapEvents :=
    if check_eap burst.ipf_version then
      [GSEvent.eapCorrect temp_slc_path
        (scratch_path ++ "/" ++ id_pol ++ "_corrected_temp.rdr")]
    else []
  let splitEvents :=
    if cfg.split_spectrum_enabled then [GSEvent.splitSpectrum scratch_path]
    else []
  let tailEvents :=
    [GSEvent.vrtWrite temp_slc_path]
    ++ eapEvents
    ++ splitEvents
    ++ [GSEvent.rasterCreate (burst_output_path ++ "/" ++ id_pol ++ ".slc")
          geo_grid.width geo_grid.length,
        GSEvent.geocodeSlcCall burst_id date_str pol,
        GSEvent.setGeotransform
          [geo_grid.start_x, geo_grid.spacing_x, 0,
           geo_grid.start_y, 0, geo_grid.spacing_y] cfg.dem_epsg,
        GSEvent.jsonWrite (burst_output_path ++ "/" ++ id_pol ++ ".json")]
  if cfg.rdr2geo_enabled then
    if cfg.geocode_metadata_layers then
      (headEvents ++ [GSEvent.rdr2geoNested],
       some (PyError.typeError
         "run() missing 1 required positional argument: burst"))
    else
      (headEvents ++ [GSEvent.rdr2geoNested] ++ tailEvents, none)
  else
    (headEvents ++ tailEvents, none)

/-- The burst loop of `s1_geocode_slc.run` in state-passing form: the
per-burst GeoGrid map is threaded through the loop (which reads it and never
rebinds it), and a raised error aborts the remaining iterations, exactly as
the uncaught Python exception would. -/
def geocodeSlcLoop (check_eap : Nat → Bool) (cfg : GeoRunConfig) :
    List Burst → (String → GeoGrid) →
      (List GSEvent × Option PyError) × (String → GeoGrid)
  | [], geogrids => (([], none), geogrids)
  | burst :: rest, geogrids =>
    let b := geocodeSlcBurst check_eap cfg burst
    match b.2 with
    | some e => ((b.1, some e), geogrids)
    | none =>
      let r := geocodeSlcLoop check_eap cfg rest geogrids
      ((b.1 ++ r.1.1, r.1.2), r.2)

/-- `s1_geocode_slc.run`: events of all bursts in order and the propagated
error, if any, together with the GeoGrid map as left after the stage. -/
def s1_geocode_slc_run (check_eap : Nat → Bool) (cfg : GeoRunConfig) :
    (List GSEvent × Option PyError) × (String → GeoGrid) :=
  geocodeSlcLoop check_eap cfg cfg.bursts cfg.geogrids

/-- The (burst id, date, polarization) triples on which the trace invoked
`isce3.geocode.geocode_slc`. -/
def gsEngineCalls (evs : List GSEvent) : List (String × String × String) :=
  evs.filterMap fun e =>
    match e with
    | GSEvent.geocodeSlcCall b d p => some (b, d, p)
    | _ => none

/-- The paths passed to `os.makedirs` by the geocode_slc trace. -/
def gsMakedirsPaths (evs : List GSEvent) : List String :=
  evs.filterMap fun e =>
    match e with
    | GSEvent.makedirs p => some p
    | _ => none

/-- All file-system paths the geocode_slc trace creates: directories, the
temporary burst VRT, the EAP-corrected burst, the geocoded raster and the
JSON sidecar. -/
def gsOutputPaths (evs : List GSEvent) : List String :=
  evs.filterMap fun e =>
    match e with
    | GSEvent.makedirs p => some p
    | GSEvent.vrtWrite p => some p
    | GSEvent.eapCorrect _ dst => some dst
    | GSEvent.rasterCreate p _ _ => some p
    | GSEvent.jsonWrite p => some p
    | _ => none

/-- The rdr2geo layer toggles read by `s1_geocode_metadata.run`. -/
structure Rdr2geoParams where
  compute_latitude : Bool
  compute_longitude : Bool
  compute_height : Bool
  compute_incidence_angle : Bool
  compute_local_incidence_angle : Bool
  compute_azimuth_angle : Bool
  compute_layover_shadow_mask : Bool
  deriving DecidableEq, Repr

/-- Per (burst id, date) output/scratch directory pair
(`cfg.output_paths[burst_id_date_key]`). -/
structure OutputPaths where
  output_directory : String
  scratch_directory : String
  deriving DecidableEq, Repr

/-- Configuration fields `s1_geocode_metadata.run` reads.  `bursts` is
present in the runconfig but, notably, not consulted by this stage. -/
structure MetaRunConfig where
  dem : String
  dem_epsg : Nat
  geogrids : String → GeoGrid
  output_paths : String × String → OutputPaths
  rdr2geo_params : Rdr2geoParams
  threshold : Rat
  numiter : Nat
  lines_per_block : Nat
  bursts : List Burst

/-- The `meta_layers` dictionary of `s1_geocode_metadata.run`
(s1_geocode_metadata.py lines 84-91), in insertion order. -/
def meta_layers (p : Rdr2geoParams) : List (String × Bool) :=
  [("x", p.compute_longitude), ("y", p.compute_latitude),
   ("z", p.compute_height), ("incidence", p.compute_incidence_angle),
   ("local_incidence", p.compute_local_incidence_angle),
   ("heading", p.compute_azimuth_angle),
   ("layover_shadow_mask", p.compute_layover_shadow_mask)]

/-- Observable events of `s1_geocode_metadata.run`. -/
inductive MetaEvent
  | h5Create (path : String)
  | datasetCreate (layer : String)
  | rasterRead (path : String)
  | geocodeCall (layer : String)
  | setGeotransform (gt : List Int) (epsg : Nat)
  deriving DecidableEq, Repr

/-- `s1_geocode_metadata.run` (s1_geocode_metadata.py lines 21-121): geocodes
the enabled metadata layers of the single burst passed as argument into one
HDF5 file, invoking `geo.geocode` once per enabled layer.  The GeoGrid map
is threaded through unchanged, as in the geocode_slc loop. -/
def s1_geocode_metadata_run (cfg : MetaRunConfig) (burst : Burst)
    (fetch_from_scratch : Bool) : List MetaEvent × (String → GeoGrid) :=
  let date_str := burst.date_str
  let burst_id := burst.burst_id
  let geo_grid := cfg.geogrids burst_id
  let output_epsg := geo_grid.epsg
  let out_paths := cfg.output_paths (burst_id, date_str)
  let input_path :=
    if fetch_from_scratch then out_paths.scratch_directory
    else out_paths.output_directory
  let geotransform :=
    [geo_grid.start_x, geo_grid.spacing_x, 0,
     geo_grid.start_y, 0, geo_grid.spacing_y]
  (MetaEvent.h5Create (out_paths.output_directory ++ "/topo.h5") ::
    (meta_layers cfg.rdr2geo_params).flatMap (fun layer =>
      if layer.2 then
        [MetaEvent.datasetCreate layer.1,
         MetaEvent.rasterRead (input_path ++ "/" ++ layer.1 ++ ".rdr"),
         MetaEvent.geocodeCall layer.1,
         MetaEvent.setGeotransform geotransform output_epsg]
      else []),
   cfg.geogrids)

/-- The layers on which the metadata trace invoked `geo.geocode`. -/
def metaGeocodeCalls (evs : List MetaEvent) : List String :=
  evs.filterMap fun e =>
    match e with
    | MetaEvent.geocodeCall layer => some layer
    | _ => none

/-- `isce3.core.LUT2d` as consumed by `utils/lut.py`: origin, spacings and
the data array.  Grid coordinates are floats in the source, modelled as
`Rat`, and the data values as `Int`; no claim here depends on rounding. -/
structure LUT2d where
  x_start : Rat
  y_start : Rat
  x_spacing : Rat
  y_spacing : Rat
  data : List (List Int)
  deriving DecidableEq, Repr

/-- The two exception kinds `compute_geocoding_correction_luts` can raise. -/
inductive LutError
  | valueError (msg : String)
  | fileNotFoundError (msg : String)
  deriving DecidableEq, Repr

/-- The burst methods `compute_geocoding_correction_luts` calls, as opaque
engine functions of the step parameters (and, for the FM-rate mismatch, the
DEM and scratch paths). -/
structure LutBurst where
  bistatic_delay : Nat → Rat → LUT2d
  geometrical_and_steering_doppler : Nat → Rat → LUT2d
  az_fm_rate_mismatch_mitigation :
    String → Option String → Nat → Rat → LUT2d

/-- Elementwise sum of two data arrays (`az_lut.data + az_fm_mismatch.data`
on equal-shape numpy arrays). -/
def addData (a b : List (List Int)) : List (List Int) :=
  List.zipWith (List.zipWith (· + ·)) a b

/-- `compute_geocoding_correction_luts` (utils/lut.py lines 38-59), with
`path_exists` modelling `os.path.exists`.  The source computes the bistatic
delay and doppler LUTs first, then raises `ValueError` when `dem_path` is
`None`, then raises `FileNotFoundError` when the file at `dem_path` exists
(the condition in the source is `if os.path.exists(dem_path)`), and only
otherwise computes the FM-rate mismatch LUT and rebuilds the azimuth LUT —
passing `az_lut.x_spacing` for both of `LUT2d`'s spacing arguments, as the
source does. -/
def compute_geocoding_correction_luts (burst : LutBurst)
    (path_exists : String → Bool) (rg_step : Nat := 200)
    (az_step : Rat := 1/4) (dem_path : Option String := none)
    (scratch_path : Option String := none) :
    Except LutError (LUT2d × LUT2d) :=
  let az_lut := burst.bistatic_delay rg_step az_step
  let rg_lut := burst.geometrical_and_steering_doppler rg_step az_step
  match dem_path with
  | none =>
    Except.error (LutError.valueError
      "DEM for azimith FM rate mismatch was not provided.")
  | some dp =>
    if path_exists dp then
      Except.error (LutError.fileNotFoundError
        ("Cannot find the dem file: " ++ dp))
    else
      let az_fm_mismatch :=
        burst.az_fm_rate_mismatch_mitigation dp scratch_path rg_step az_step
      let az_lut' : LUT2d :=
        { x_start := az_lut.x_start
          y_start := az_lut.y_start
          x_spacing := az_lut.x_spacing
          y_spacing := az_lut.x_spacing
          data := addData az_lut.data az_fm_mismatch.data }
      Except.ok (rg_lut, az_lut')

theorem mem_makedirs {fs : List String} {q p : String} :
    p ∈ makedirs fs q ↔ p = q ∨ p ∈ fs := by
  unfold makedirs
  split
  · rename_i hq
    constructor
    · exact Or.inr
    · rintro (rfl | h)
      · exact hq
      · exact h
  · simp [List.mem_cons]

theorem makedirs_of_mem {fs : List String} (q : String) {p : String}
    (h : p ∈ fs) : p ∈ makedirs fs q :=
  mem_makedirs.mpr (Or.inr h)

/-- `exist_ok=True` semantics: creating a path that already exists leaves the
file system unchanged. -/
theorem makedirs_eq_of_mem {fs : List String} {p : String} (h : p ∈ fs) :
    makedirs fs p = fs :=
  if_pos h

/-- Directory creation is idempotent. -/
theorem makedirs_idem (fs : List String) (p : String) :
    makedirs (makedirs fs p) p = makedirs fs p :=
  makedirs_eq_of_mem (mem_makedirs.mpr (Or.inl rfl))

/-- A directory that already exists is never created again by any makedirs
sequence. -/
theorem creationCount_of_mem (paths : List String) :
    ∀ (fs : List String) (p : String), p ∈ fs →
      creationCount fs paths p = 0 := by
  induction paths with
  | nil => intro fs p _; rfl
  | cons q rest ih =>
    intro fs p h
    simp only [creationCount]
    rw [if_neg (fun hc => hc.1 h), ih (makedirs fs q) p (makedirs_of_mem q h)]

/-- No makedirs sequence brings a directory into existence more than once. -/
theorem creationCount_le_one (paths : List String) :
    ∀ (fs : List String) (p : String), creationCount fs paths p ≤ 1 := by
  induction paths with
  | nil => intro fs p; exact Nat.zero_le 1
  | cons q rest ih =>
    intro fs p
    simp only [creationCount]
    by_cases hmem : p ∉ fs ∧ p ∈ makedirs fs q
    · rw [if_pos hmem, creationCount_of_mem rest (makedirs fs q) p hmem.2]
    · rw [if_neg hmem]
      simpa using ih (makedirs fs q) p

/-- A directory that does not exist yet and is among the created paths comes
into existence exactly once. -/
theorem creationCount_eq_one (paths : List String) :
    ∀ (fs : List String) (p : String), p ∉ fs → p ∈ paths →
      creationCount fs paths p = 1 := by
  induction paths with
  | nil => intro fs p _ hin; cases hin
  | cons q rest ih =>
    intro fs p hnot hin
    simp only [creationCount]
    by_cases hq : p ∈ makedirs fs q
    · rw [if_pos ⟨hnot, hq⟩, creationCount_of_mem rest (makedirs fs q) p hq]
    · rw [if_neg (fun hc => hq hc.2)]
      have hpq : p ≠ q := fun h => hq (mem_makedirs.mpr (Or.inl h))
      have hrest : p ∈ rest := by
        rcases List.mem_cons.mp hin with rfl | h
        · exact absurd rfl hpq
        · exact h
      simpa using ih (makedirs fs q) p hq hrest

/-- Unless both metadata flags are set, a geocode_slc burst iteration
raises nothing. -/
theorem geocodeSlcBurst_ok (check_eap : Nat → Bool) (cfg : GeoRunConfig)
    (b : Burst)
    (hok : cfg.rdr2geo_enabled = false ∨
      cfg.geocode_metadata_layers = false) :
    (geocodeSlcBurst check_eap cfg b).2 = none := by
  rcases hok with h | h
  · simp [geocodeSlcBurst, h]
  · cases h1 : cfg.rdr2geo_enabled <;> simp [geocodeSlcBurst, h1, h]

/-- With both metadata flags set, a geocode_slc burst iteration stops at the
broken nested metadata call: the two directory creations and the nested
rdr2geo run happen, then the `TypeError` is raised. -/
theorem geocodeSlcBurst_crash (check_eap : Nat → Bool) (cfg : GeoRunConfig)
    (b : Burst) (h1 : cfg.rdr2geo_enabled = true)
    (h2 : cfg.geocode_metadata_layers = true) :
    geocodeSlcBurst check_eap cfg b =
      ([GSEvent.makedirs
          (cfg.product_path ++ "/" ++ b.burst_id ++ "/" ++ b.date_str),
        GSEvent.makedirs
          (cfg.scratch_path ++ "/" ++ b.burst_id ++ "/" ++ b.date_str),
        GSEvent.rdr2geoNested],
       some (PyError.typeError
         "run() missing 1 required positional argument: burst")) := by
  simp [geocodeSlcBurst, h1, h2]

/-- When no iteration raises, the geocode_slc loop's event trace is the
concatenation of the per-burst traces, in burst order, and no error is
propagated. -/
theorem geocodeSlcLoop_events (check_eap : Nat → Bool) (cfg : GeoRunConfig)
    (hok : cfg.rdr2geo_enabled = false ∨
      cfg.geocode_metadata_layers = false)
    (bs : List Burst) (gg : String → GeoGrid) :
    (geocodeSlcLoop check_eap cfg bs gg).1.1 =
      bs.flatMap (fun b => (geocodeSlcBurst check_eap cfg b).1) ∧
    (geocodeSlcLoop check_eap cfg bs gg).1.2 = none := by
  induction bs with
  | nil => exact ⟨rfl, rfl⟩
  | cons b rest ih =>
    have hb := geocodeSlcBurst_ok check_eap cfg b hok
    simp only [geocodeSlcLoop, hb, List.flatMap_cons]
    exact ⟨by rw [ih.1], ih.2⟩

/-- The geocode_slc loop passes the GeoGrid map through unchanged, whether
or not an iteration raises. -/
theorem geocodeSlcLoop_geogrids (check_eap : Nat → Bool) (cfg : GeoRunConfig)
    (bs : List Burst) (gg : String → GeoGrid) :
    (geocodeSlcLoop check_eap cfg bs gg).2 = gg := by
  induction bs with
  | nil => rfl
  | cons b rest ih =>
    simp only [geocodeSlcLoop]
    cases h : (geocodeSlcBurst check_eap cfg b).2 <;> simp [h, ih]

/-- Unless both metadata flags are set, each geocode_slc burst iteration
makes exactly one engine call, on that burst's (id, date, polarization). -/
theorem gsEngineCalls_burst (check_eap : Nat → Bool) (cfg : GeoRunConfig)
    (b : Burst)
    (hok : cfg.rdr2geo_enabled = false ∨
      cfg.geocode_metadata_layers = false) :
    gsEngineCalls (geocodeSlcBurst check_eap cfg b).1 =
      [(b.burst_id, b.date_str, b.polarization)] := by
  cases h1 : cfg.rdr2geo_enabled <;>
    cases h2 : cfg.geocode_metadata_layers <;>
    cases h3 : check_eap b.ipf_version <;>
    cases h4 : cfg.split_spectrum_enabled <;>
    simp [geocodeSlcBurst, gsEngineCalls, h1, h2, h3, h4] <;>
    rcases hok with h | h <;> simp [h1, h2] at h

theorem gsEngineCalls_append (a b : List GSEvent) :
    gsEngineCalls (a ++ b) = gsEngineCalls a ++ gsEngineCalls b := by
  simp [gsEngineCalls, List.filterMap_append]

theorem gsOutputPaths_append (a b : List GSEvent) :
    gsOutputPaths (a ++ b) = gsOutputPaths a ++ gsOutputPaths b := by
  simp [gsOutputPaths, List.filterMap_append]

theorem gsMakedirsPaths_append (a b : List GSEvent) :
    gsMakedirsPaths (a ++ b) = gsMakedirsPaths a ++ gsMakedirsPaths b := by
  simp [gsMakedirsPaths, List.filterMap_append]

/-- Unless both metadata flags are set, `s1_geocode_slc.run` invokes the
engine once per configured burst, in order, with no duplicate check: the
call list is exactly the burst list's (id, date, polarization) triples. -/
theorem gsEngineCalls_run (check_eap : Nat → Bool) (cfg : GeoRunConfig)
    (hok : cfg.rdr2geo_enabled = false ∨
      cfg.geocode_metadata_layers = false) :
    gsEngineCalls (s1_geocode_slc_run check_eap cfg).1.1 =
      cfg.bursts.map fun b => (b.burst_id, b.date_str, b.polarization) := by
  rw [s1_geocode_slc_run,
    (geocodeSlcLoop_events check_eap cfg hok cfg.bursts cfg.geogrids).1]
  induction cfg.bursts with
  | nil => rfl
  | cons b rest ih =>
    rw [List.flatMap_cons, gsEngineCalls_append,
      gsEngineCalls_burst check_eap cfg b hok, ih, List.map_cons,
      List.singleton_append]

/-- With both metadata flags set and a nonempty burst list, the whole run
stops inside the first iteration with the `TypeError` from the broken
nested metadata call. -/
theorem s1_geocode_slc_run_crash (check_eap : Nat → Bool)
    (cfg : GeoRunConfig) (b : Burst) (rest : List Burst)
    (h1 : cfg.rdr2geo_enabled = true)
    (h2 : cfg.geocode_metadata_layers = true)
    (hbs : cfg.bursts = b :: rest) :
    (s1_geocode_slc_run check_eap cfg).1 =
      ([GSEvent.makedirs
          (cfg.product_path ++ "/" ++ b.burst_id ++ "/" ++ b.date_str),
        GSEvent.makedirs
          (cfg.scratch_path ++ "/" ++ b.burst_id ++ "/" ++ b.date_str),
        GSEvent.rdr2geoNested],
       some (PyError.typeError
         "run() missing 1 required positional argument: burst")) := by
  rw [s1_geocode_slc_run, hbs]
  simp only [geocodeSlcLoop, geocodeSlcBurst_crash check_eap cfg b h1 h2]

/-- With both metadata flags set the run makes no engine call at all. -/
theorem gsEngineCalls_run_crash (check_eap : Nat → Bool)
    (cfg : GeoRunConfig) (h1 : cfg.rdr2geo_enabled = true)
    (h2 : cfg.geocode_metadata_layers = true) :
    gsEngineCalls (s1_geocode_slc_run check_eap cfg).1.1 = [] := by
  cases hbs : cfg.bursts with
  | nil => rw [s1_geocode_slc_run, hbs]; rfl
  | cons b rest =>
    have h :=
      congrArg Prod.fst (s1_geocode_slc_run_crash check_eap cfg b rest h1 h2 hbs)
    rw [h]
    rfl

/-- With both metadata flags set the run creates only the first burst's two
directories. -/
theorem gsOutputPaths_run_crash (check_eap : Nat → Bool)
    (cfg : GeoRunConfig) (b : Burst) (rest : List Burst)
    (h1 : cfg.rdr2geo_enabled = true)
    (h2 : cfg.geocode_metadata_layers = true)
    (hbs : cfg.bursts = b :: rest) :
    gsOutputPaths (s1_geocode_slc_run check_eap cfg).1.1 =
      [cfg.product_path ++ "/" ++ b.burst_id ++ "/" ++ b.date_str,
       cfg.scratch_path ++ "/" ++ b.burst_id ++ "/" ++ b.date_str] := by
  have h :=
    congrArg Prod.fst (s1_geocode_slc_run_crash check_eap cfg b rest h1 h2 hbs)
  rw [h]
  rfl

/-- Closed form of the paths one geocode_slc burst iteration creates, when
the iteration does not raise. -/
theorem gsOutputPaths_burst (check_eap : Nat → Bool) (cfg : GeoRunConfig)
    (b : Burst)
    (hok : cfg.rdr2geo_enabled = false ∨
      cfg.geocode_metadata_layers = false) :
    gsOutputPaths (geocodeSlcBurst check_eap cfg b).1 =
      [cfg.product_path ++ "/" ++ b.burst_id ++ "/" ++ b.date_str,
       cfg.scratch_path ++ "/" ++ b.burst_id ++ "/" ++ b.date_str,
       cfg.scratch_path ++ "/" ++ b.burst_id ++ "/" ++ b.date_str ++ "/" ++
         (b.burst_id ++ "_" ++ b.polarization) ++ "_temp.vrt"]
      ++ (if check_eap b.ipf_version then
            [cfg.scratch_path ++ "/" ++ b.burst_id ++ "/" ++ b.date_str ++
              "/" ++ (b.burst_id ++ "_" ++ b.polarization) ++
              "_corrected_temp.rdr"]
          else [])
      ++ [cfg.product_path ++ "/" ++ b.burst_id ++ "/" ++ b.date_str ++ "/" ++
            (b.burst_id ++ "_" ++ b.polarization) ++ ".slc",
          cfg.product_path ++ "/" ++ b.burst_id ++ "/" ++ b.date_str ++ "/" ++
            (b.burst_id ++ "_" ++ b.polarization) ++ ".json"] := by
  cases h1 : cfg.rdr2geo_enabled <;>
    cases h2 : cfg.geocode_metadata_layers <;>
    cases h3 : check_eap b.ipf_version <;>
    cases h4 : cfg.split_spectrum_enabled <;>
    simp [geocodeSlcBurst, gsOutputPaths, h1, h2, h3, h4] <;>
    rcases hok with h | h <;> simp [h1, h2] at h

@[simp]
theorem metaGeocodeCalls_cons_h5 (p : String) (evs : List MetaEvent) :
    metaGeocodeCalls (MetaEvent.h5Create p :: evs) = metaGeocodeCalls evs :=
  rfl

/-- The geocode calls contributed by the per-layer loop body: one per
enabled layer, in order. -/
theorem metaGeocodeCalls_flatMap (ip : String) (gt : List Int) (ep : Nat)
    (layers : List (String × Bool)) :
    metaGeocodeCalls (layers.flatMap (fun layer =>
        if layer.2 then
          [MetaEvent.datasetCreate layer.1,
           MetaEvent.rasterRead (ip ++ "/" ++ layer.1 ++ ".rdr"),
           MetaEvent.geocodeCall layer.1,
           MetaEvent.setGeotransform gt ep]
        else [])) =
      (layers.filter (fun layer => layer.2)).map (fun layer => layer.1) := by
  induction layers with
  | nil => rfl
  | cons l rest ih =>
    cases h : l.2 <;>
      simp only [List.flatMap_cons, h, if_true, if_false,
        List.filter_cons, metaGeocodeCalls, List.filterMap_append] at ih ⊢ <;>
      simp [ih]

/-- The metadata stage invokes `geo.geocode` exactly once per enabled layer,
in dictionary order. -/
theorem metaGeocodeCalls_run (cfg : MetaRunConfig) (burst : Burst)
    (fetch_from_scratch : Bool) :
    metaGeocodeCalls
        (s1_geocode_metadata_run cfg burst fetch_from_scratch).1 =
      ((meta_layers cfg.rdr2geo_params).filter (fun layer => layer.2)).map
        (fun layer => layer.1) := by
  rw [s1_geocode_metadata_run]
  exact metaGeocodeCalls_flatMap _ _ _ _

/-- The metadata stage never consults the configured burst list: replacing
it leaves the stage's behaviour unchanged. -/
theorem s1_geocode_metadata_run_ignores_bursts (cfg : MetaRunConfig)
    (burst : Burst) (fetch_from_scratch : Bool) (bs : List Burst) :
    s1_geocode_metadata_run { cfg with bursts := bs } burst
        fetch_from_scratch =
      s1_geocode_metadata_run cfg burst fetch_from_scratch := by
  rcases cfg with ⟨_, _, _, _, _, _, _, _, _⟩
  rfl

end Compass

namespace Compass

/-- C1: for every run configuration, `s1_cslc.run` dispatches on the single
boolean `cfg.is_reference`: when it is true exactly the topography stage runs
and neither geo2rdr nor resample runs; when it is false geo2rdr and resample
run, in that order, exactly once each, and topography does not run. -/
theorem s1_cslc_run_dispatch (cfg : CslcConfig) :
    (cfg.is_reference = true →
      (s1_cslc_run cfg).count CslcStage.rdr2geo = 1 ∧
      CslcStage.geo2rdr ∉ s1_cslc_run cfg ∧
      CslcStage.resample ∉ s1_cslc_run cfg) ∧
    (cfg.is_reference = false →
      (s1_cslc_run cfg).count CslcStage.geo2rdr = 1 ∧
      (s1_cslc_run cfg).count CslcStage.resample = 1 ∧
      CslcStage.rdr2geo ∉ s1_cslc_run cfg ∧
      s1_cslc_run cfg =
        [CslcStage.geo2rdr, CslcStage.resample]) := by
  unfold s1_cslc_run
  rcases h : cfg.is_reference <;> simp

/-- Witness for C1 at two concrete configurations, one reference and one
secondary. -/
theorem s1_cslc_run_dispatch_witness :
    ((s1_cslc_run ⟨true, "sc", "dem", []⟩).count CslcStage.rdr2geo = 1 ∧
      CslcStage.geo2rdr ∉ s1_cslc_run ⟨true, "sc", "dem", []⟩ ∧
      CslcStage.resample ∉ s1_cslc_run ⟨true, "sc", "dem", []⟩) ∧
    ((s1_cslc_run ⟨false, "sc", "dem", []⟩).count CslcStage.geo2rdr = 1 ∧
      (s1_cslc_run ⟨false, "sc", "dem", []⟩).count CslcStage.resample = 1 ∧
      CslcStage.rdr2geo ∉ s1_cslc_run ⟨false, "sc", "dem", []⟩ ∧
      s1_cslc_run ⟨false, "sc", "dem", []⟩ =
        [CslcStage.geo2rdr, CslcStage.resample]) :=
  ⟨(s1_cslc_run_dispatch ⟨true, "sc", "dem", []⟩).1 rfl,
   (s1_cslc_run_dispatch ⟨false, "sc", "dem", []⟩).2 rfl⟩

/-- C2: when every burst in the configuration shares the same
(burst id, sensing-date string) pair — e.g. the polarizations of one burst —
`s1_geo2rdr.run` constructs the geo2rdr engine object and invokes its
`geo2rdr` method exactly once for that pair, whatever the engine does. -/
theorem s1_geo2rdr_once_for_shared_pair {ε : Type}
    (engine : String × String → Except ε Unit) (cfg : Geo2rdrConfig)
    (bid d : String) (hne : cfg.bursts ≠ [])
    (hall : ∀ b ∈ cfg.bursts, b.burst_id = bid ∧ b.date_str = d) :
    engineCallPairs (s1_geo2rdr_run engine cfg).1 = [(bid, d)] ∧
      engineInitPairs (s1_geo2rdr_run engine cfg).1 = [(bid, d)] := by
  have hinit := engineInitPairs_geo2rdrLoop engine cfg.scratch_path cfg.bursts []
  suffices hcall : engineCallPairs (s1_geo2rdr_run engine cfg).1 = [(bid, d)] by
    exact ⟨hcall, hinit.trans hcall⟩
  rcases hbs : cfg.bursts with _ | ⟨b, rest⟩
  · exact absurd hbs hne
  · obtain ⟨hb1, hb2⟩ := hall b (hbs ▸ List.mem_cons_self b rest)
    subst hb1
    subst hb2
    have hrest : ∀ b' ∈ rest, (b'.burst_id, b'.date_str) ∈
        [(b.burst_id, b.date_str)] := by
      intro b' hb'
      obtain ⟨h1, h2⟩ := hall b' (hbs ▸ List.mem_cons_of_mem b hb')
      simp [h1, h2]
    rw [s1_geo2rdr_run, hbs]
    cases hengine : engine (b.burst_id, b.date_str) with
    | error e =>
      simp [geo2rdrLoop, hengine]
    | ok u =>
      have hdone := geo2rdrLoop_all_processed engine cfg.scratch_path rest
        [(b.burst_id, b.date_str)] hrest
      simp [geo2rdrLoop, hengine, hdone.1]

/-- Concrete engine oracle that always succeeds. -/
def exEngineOk : String × String → Except Unit Unit := fun _ => Except.ok ()

/-- Concrete engine oracle that always fails with a String error. -/
def exEngineFail : String × String → Except String Unit :=
  fun _ => Except.error "geo2rdr engine failure"

/-- Two polarizations of one burst: same burst id and sensing date. -/
def exBurstVV : Burst := ⟨"t071_151200_iw1", "20221016", "VV", 3⟩

/-- Second polarization of the same burst. -/
def exBurstVH : Burst := ⟨"t071_151200_iw1", "20221016", "VH", 3⟩

/-- A concrete geo2rdr run configuration holding both polarizations. -/
def exG2RCfg : Geo2rdrConfig :=
  ⟨"scratch", "dem.tif", "reference", 1/2, 25, 1000, [exBurstVV, exBurstVH]⟩

/-- Witness for C2: with two polarizations of one burst, the engine is
constructed and invoked exactly once. -/
theorem s1_geo2rdr_once_for_shared_pair_witness :
    engineCallPairs (s1_geo2rdr_run exEngineOk exG2RCfg).1 =
        [("t071_151200_iw1", "20221016")] ∧
      engineInitPairs (s1_geo2rdr_run exEngineOk exG2RCfg).1 =
        [("t071_151200_iw1", "20221016")] :=
  s1_geo2rdr_once_for_shared_pair exEngineOk exG2RCfg
    "t071_151200_iw1" "20221016" (by decide) (by decide)

/-- C7: an engine error propagates out of `s1_geo2rdr.run` unmodified (the
returned error is exactly the engine's, at an arbitrary error type the
wrapper cannot inspect), every engine call before the failing one succeeded,
and no engine call is made after the error: the calls made are precisely the
prefix of the deduplicated pair sequence ending at the failing pair. -/
theorem s1_geo2rdr_error_propagation {ε : Type}
    (engine : String × String → Except ε Unit) (cfg : Geo2rdrConfig) (e : ε)
    (h : (s1_geo2rdr_run engine cfg).2 = some e) :
    ∃ pre fail post,
      dedupPairs [] cfg.bursts = pre ++ fail :: post ∧
      engineCallPairs (s1_geo2rdr_run engine cfg).1 = pre ++ [fail] ∧
      engine fail = Except.error e ∧
      ∀ c ∈ pre, engine c = Except.ok () :=
  geo2rdrLoop_err engine cfg.scratch_path cfg.bursts [] e h

/-- A concrete output grid. -/
def exGeoGrid : GeoGrid := ⟨600000, 4100000, 5, -10, 200, 100, 32631⟩

/-- Concrete model of the external EAP-necessity check: IPF versions below 3
require the phase correction. -/
def exCheckEap : Nat → Bool := fun v => v < 3

/-- A concrete geocode_slc run configuration with both polarizations of one
burst. -/
def exGeoCfg : GeoRunConfig :=
  { product_path := "product"
    scratch_path := "scratch"
    dem := "dem.tif"
    dem_epsg := 32631
    geogrids := fun _ => exGeoGrid
    rdr2geo_enabled := false
    geocode_metadata_layers := false
    split_spectrum_enabled := false
    flatten := true
    output_format := "ENVI"
    threshold := 1/100000000
    numiter := 25
    lines_per_block := 1000
    bursts := [exBurstVV, exBurstVH] }

/-- The VV burst with an older IPF version, the only difference from
`exBurstVV`. -/
def exBurstVVold : Burst := ⟨"t071_151200_iw1", "20221016", "VV", 2⟩

/-- `exGeoCfg` restricted to the single modern-IPF VV burst. -/
def exGeoCfgA : GeoRunConfig := { exGeoCfg with bursts := [exBurstVV] }

/-- Identical to `exGeoCfgA` except the burst's IPF version. -/
def exGeoCfgB : GeoRunConfig := { exGeoCfg with bursts := [exBurstVVold] }

/-- Identical paths and bursts to `exGeoCfg` but different DEM, grid,
thresholds and feature flags (keeping `geocode_metadata_layers` off, so the
stage still completes). -/
def exGeoCfg2 : GeoRunConfig :=
  { exGeoCfg with
    dem := "other_dem.tif"
    dem_epsg := 4326
    geogrids := fun _ => ⟨1, 2, 3, 4, 5, 6, 7⟩
    rdr2geo_enabled := true
    split_spectrum_enabled := true
    flatten := false
    output_format := "GTiff"
    threshold := 1/2
    numiter := 3
    lines_per_block := 10 }

/-- `exGeoCfg` with both metadata flags enabled: the configuration on which
the stage crashes at the broken nested metadata call. -/
def exGeoCfgCrash : GeoRunConfig :=
  { exGeoCfg with
    rdr2geo_enabled := true
    geocode_metadata_layers := true }

/-- Witness for C7: a failing engine aborts the run with its own error after
exactly one call. -/
theorem s1_geo2rdr_error_propagation_witness :
    ∃ pre fail post,
      dedupPairs [] exG2RCfg.bursts = pre ++ fail :: post ∧
      engineCallPairs (s1_geo2rdr_run exEngineFail exG2RCfg).1 =
        pre ++ [fail] ∧
      exEngineFail fail = Except.error "geo2rdr engine failure" ∧
      ∀ c ∈ pre, exEngineFail c = Except.ok () :=
  s1_geo2rdr_error_propagation exEngineFail exG2RCfg
    "geo2rdr engine failure" (by decide)

/-- Counterexample to C3 as stated: the geocode_slc stage performs no
duplicate check — with two polarizations of one burst the
(burst id, date) pair ("t071_151200_iw1", "20221016") is processed twice in
one stage execution. -/
theorem per_stage_dedup_cex :
    (gsEngineCalls (s1_geocode_slc_run exCheckEap exGeoCfg).1.1).map
        (fun c => (c.1, c.2.1)) =
      [("t071_151200_iw1", "20221016"), ("t071_151200_iw1", "20221016")] ∧
    ¬ ((gsEngineCalls (s1_geocode_slc_run exCheckEap exGeoCfg).1.1).map
        (fun c => (c.1, c.2.1))).Nodup := by
  constructor
  · rfl
  · decide

/-- C3 (amended): only the geo2rdr stage de-duplicates — it checks each
(burst id, date) pair against the processed list and never invokes the
engine twice on a pair — while geocode_slc has no duplicate check: unless
the stage dies on the broken nested metadata call (both
`rdr2geo_params.enabled` and `geocode_metadata_layers` set raise `TypeError`
in the first iteration), it invokes the engine exactly once per configured
burst, so a pair shared by several polarizations is processed once per
polarization; when it does die, it makes no engine call at all.
geocode_metadata processes the single burst passed to it. -/
theorem per_stage_dedup :
    (∀ (ε : Type) (engine : String × String → Except ε Unit)
        (cfg : Geo2rdrConfig),
        (engineCallPairs (s1_geo2rdr_run engine cfg).1).Nodup) ∧
    (∀ (check_eap : Nat → Bool) (cfg : GeoRunConfig),
        cfg.rdr2geo_enabled = false ∨ cfg.geocode_metadata_layers = false →
        gsEngineCalls (s1_geocode_slc_run check_eap cfg).1.1 =
          cfg.bursts.map fun b =>
            (b.burst_id, b.date_str, b.polarization)) ∧
    (∀ (check_eap : Nat → Bool) (cfg : GeoRunConfig),
        cfg.rdr2geo_enabled = true → cfg.geocode_metadata_layers = true →
        gsEngineCalls (s1_geocode_slc_run check_eap cfg).1.1 = []) :=
  ⟨fun _ engine cfg => engineCallPairs_nodup engine cfg,
   fun check_eap cfg hok => gsEngineCalls_run check_eap cfg hok,
   fun check_eap cfg h1 h2 => gsEngineCalls_run_crash check_eap cfg h1 h2⟩

/-- Witness for C3 (amended) at concrete configurations: one engine call per
polarization when the metadata flags are off, none when both are on. -/
theorem per_stage_dedup_witness :
    gsEngineCalls (s1_geocode_slc_run exCheckEap exGeoCfg).1.1 =
      [("t071_151200_iw1", "20221016", "VV"),
       ("t071_151200_iw1", "20221016", "VH")] ∧
    gsEngineCalls (s1_geocode_slc_run exCheckEap exGeoCfgCrash).1.1 = [] :=
  ⟨per_stage_dedup.2.1 exCheckEap exGeoCfg (Or.inl rfl),
   per_stage_dedup.2.2 exCheckEap exGeoCfgCrash rfl rfl⟩

/-- C4: directory creation is idempotent — creating an existing path leaves
the file system unchanged (and, being a total function, never raises) — and
during a stage's execution each directory comes into existence at most once;
a directory among the stage's makedirs paths that did not exist before the
stage comes into existence exactly once. -/
theorem output_dirs_created_once :
    (∀ (fs : List String) (p : String), p ∈ fs → makedirs fs p = fs) ∧
    (∀ (fs : List String) (p : String),
        makedirs (makedirs fs p) p = makedirs fs p) ∧
    (∀ (ε : Type) (engine : String × String → Except ε Unit)
        (cfg : Geo2rdrConfig) (fs : List String) (p : String),
        creationCount fs (makedirsPaths (s1_geo2rdr_run engine cfg).1) p
          ≤ 1) ∧
    (∀ (check_eap : Nat → Bool) (cfg : GeoRunConfig) (fs : List String)
        (p : String),
        creationCount fs
          (gsMakedirsPaths (s1_geocode_slc_run check_eap cfg).1.1) p ≤ 1) ∧
    (∀ (paths fs : List String) (p : String), p ∉ fs → p ∈ paths →
        creationCount fs paths p = 1) :=
  ⟨fun _ _ h => makedirs_eq_of_mem h,
   makedirs_idem,
   fun _ engine cfg fs p =>
     creationCount_le_one (makedirsPaths (s1_geo2rdr_run engine cfg).1) fs p,
   fun check_eap cfg fs p =>
     creationCount_le_one
       (gsMakedirsPaths (s1_geocode_slc_run check_eap cfg).1.1) fs p,
   fun paths fs p hnot hin => creationCount_eq_one paths fs p hnot hin⟩

/-- Witness for C4: recreating an existing directory is a no-op, and on a
fresh file system the geocode_slc product directory of the example run is
created exactly once even though `os.makedirs` receives it twice (once per
polarization). -/
theorem output_dirs_created_once_witness :
    makedirs ["product/t071_151200_iw1/20221016"]
        "product/t071_151200_iw1/20221016" =
      ["product/t071_151200_iw1/20221016"] ∧
    creationCount []
        (gsMakedirsPaths (s1_geocode_slc_run exCheckEap exGeoCfg).1.1)
        "product/t071_151200_iw1/20221016" = 1 :=
  ⟨output_dirs_created_once.1 ["product/t071_151200_iw1/20221016"]
      "product/t071_151200_iw1/20221016" (by decide),
   output_dirs_created_once.2.2.2.2
      (gsMakedirsPaths (s1_geocode_slc_run exCheckEap exGeoCfg).1.1) []
      "product/t071_151200_iw1/20221016" (by decide) (by decide)⟩

/-- Counterexample to C5 as stated: two geocode_slc configurations agreeing
on `scratch_path`, `product_path` and every burst's
(burst id, date string, polarization) — differing only in the burst's IPF
version — produce different output path sets: the EAP-corrected scratch file
exists in one run and not the other. -/
theorem output_paths_identity_cex :
    exGeoCfgA.product_path = exGeoCfgB.product_path ∧
    exGeoCfgA.scratch_path = exGeoCfgB.scratch_path ∧
    exGeoCfgA.bursts.map
        (fun b => (b.burst_id, b.date_str, b.polarization)) =
      exGeoCfgB.bursts.map
        (fun b => (b.burst_id, b.date_str, b.polarization)) ∧
    "scratch/t071_151200_iw1/20221016/t071_151200_iw1_VV_corrected_temp.rdr"
      ∈ gsOutputPaths (s1_geocode_slc_run exCheckEap exGeoCfgB).1.1 ∧
    "scratch/t071_151200_iw1/20221016/t071_151200_iw1_VV_corrected_temp.rdr"
      ∉ gsOutputPaths (s1_geocode_slc_run exCheckEap exGeoCfgA).1.1 := by
  refine ⟨rfl, rfl, rfl, ?_, ?_⟩ <;> decide

/-- C5 (amended): the geocode_slc output path set is a deterministic
function of `product_path`, `scratch_path`, each burst's
(burst id, date string, polarization), the externally decided EAP
phase-correction flag for the burst's IPF version, and the flag conjunction
`rdr2geo_params.enabled ∧ geocode_metadata_layers` (which, when set, stops
the run at the broken nested metadata call after the first burst's
directories) — independent of every other configuration field (DEM, grids,
thresholds, block sizes, the remaining feature flags, output format) and of
all other burst data. -/
theorem gsOutputPaths_deterministic (check₁ check₂ : Nat → Bool)
    (cfg₁ cfg₂ : GeoRunConfig)
    (hprod : cfg₁.product_path = cfg₂.product_path)
    (hscratch : cfg₁.scratch_path = cfg₂.scratch_path)
    (hcrash : (cfg₁.rdr2geo_enabled && cfg₁.geocode_metadata_layers) =
      (cfg₂.rdr2geo_enabled && cfg₂.geocode_metadata_layers))
    (hbursts : List.Forall₂ (fun b₁ b₂ =>
        b₁.burst_id = b₂.burst_id ∧ b₁.date_str = b₂.date_str ∧
        b₁.polarization = b₂.polarization ∧
        check₁ b₁.ipf_version = check₂ b₂.ipf_version)
      cfg₁.bursts cfg₂.bursts) :
    gsOutputPaths (s1_geocode_slc_run check₁ cfg₁).1.1 =
      gsOutputPaths (s1_geocode_slc_run check₂ cfg₂).1.1 := by
  by_cases hc : cfg₁.rdr2geo_enabled = true ∧
      cfg₁.geocode_metadata_layers = true
  · have hand₂ : (cfg₂.rdr2geo_enabled && cfg₂.geocode_metadata_layers) =
        true := by rw [← hcrash, hc.1, hc.2]; rfl
    obtain ⟨h1₂, h2₂⟩ := Bool.and_eq_true_iff.mp hand₂
    cases hbs₁ : cfg₁.bursts with
    | nil =>
      rw [hbs₁] at hbursts
      have hbs₂ : cfg₂.bursts = [] := List.forall₂_nil_left_iff.mp hbursts
      rw [s1_geocode_slc_run, s1_geocode_slc_run, hbs₁, hbs₂]
      rfl
    | cons b₁ l₁ =>
      rw [hbs₁] at hbursts
      obtain ⟨b₂, l₂, hb, htail, hbs₂⟩ :=
        List.forall₂_cons_left_iff.mp hbursts
      obtain ⟨h1, h2, -, -⟩ := hb
      rw [gsOutputPaths_run_crash check₁ cfg₁ b₁ l₁ hc.1 hc.2 hbs₁,
        gsOutputPaths_run_crash check₂ cfg₂ b₂ l₂ h1₂ h2₂ hbs₂,
        h1, h2, hprod, hscratch]
  · have hok₁ : cfg₁.rdr2geo_enabled = false ∨
        cfg₁.geocode_metadata_layers = false := by
      cases h1 : cfg₁.rdr2geo_enabled <;>
        cases h2 : cfg₁.geocode_metadata_layers <;> simp_all
    have hand₁ : (cfg₁.rdr2geo_enabled && cfg₁.geocode_metadata_layers) =
        false := by rcases hok₁ with h | h <;> simp [h]
    have hok₂ : cfg₂.rdr2geo_enabled = false ∨
        cfg₂.geocode_metadata_layers = false := by
      have hand₂ : (cfg₂.rdr2geo_enabled &&
          cfg₂.geocode_metadata_layers) = false := by rw [← hcrash, hand₁]
      cases h1 : cfg₂.rdr2geo_enabled <;>
        cases h2 : cfg₂.geocode_metadata_layers <;> simp_all
    have key : ∀ (l₁ l₂ : List Burst), List.Forall₂ (fun b₁ b₂ =>
        b₁.burst_id = b₂.burst_id ∧ b₁.date_str = b₂.date_str ∧
        b₁.polarization = b₂.polarization ∧
        check₁ b₁.ipf_version = check₂ b₂.ipf_version) l₁ l₂ →
        gsOutputPaths
            (l₁.flatMap (fun b => (geocodeSlcBurst check₁ cfg₁ b).1)) =
          gsOutputPaths
            (l₂.flatMap (fun b => (geocodeSlcBurst check₂ cfg₂ b).1)) := by
      intro l₁ l₂ h
      induction h with
      | nil => rfl
      | cons hb htail ih =>
        obtain ⟨h1, h2, h3, h4⟩ := hb
        rw [List.flatMap_cons, List.flatMap_cons, gsOutputPaths_append,
          gsOutputPaths_append, ih, gsOutputPaths_burst _ _ _ hok₁,
          gsOutputPaths_burst _ _ _ hok₂, h1, h2, h3, h4, hprod, hscratch]
    rw [s1_geocode_slc_run, s1_geocode_slc_run,
      (geocodeSlcLoop_events check₁ cfg₁ hok₁ cfg₁.bursts cfg₁.geogrids).1,
      (geocodeSlcLoop_events check₂ cfg₂ hok₂ cfg₂.bursts cfg₂.geogrids).1]
    exact key cfg₁.bursts cfg₂.bursts hbursts

/-- Witness for C5 (amended): the example configuration and a variant with
different DEM, grid, thresholds, flags and output format produce identical
output path sets. -/
theorem gsOutputPaths_deterministic_witness :
    gsOutputPaths (s1_geocode_slc_run exCheckEap exGeoCfg).1.1 =
      gsOutputPaths (s1_geocode_slc_run exCheckEap exGeoCfg2).1.1 :=
  gsOutputPaths_deterministic exCheckEap exCheckEap exGeoCfg exGeoCfg2
    rfl rfl (by decide)
    (List.Forall₂.cons ⟨rfl, rfl, rfl, rfl⟩
      (List.Forall₂.cons ⟨rfl, rfl, rfl, rfl⟩ List.Forall₂.nil))

/-- Layer toggles with exactly two layers (longitude and latitude)
enabled. -/
def exRdr2geoParams : Rdr2geoParams :=
  { compute_latitude := true
    compute_longitude := true
    compute_height := false
    compute_incidence_angle := false
    compute_local_incidence_angle := false
    compute_azimuth_angle := false
    compute_layover_shadow_mask := false }

/-- A concrete per-(burst id, date) output/scratch directory pair. -/
def exOutPaths : OutputPaths :=
  ⟨"product/t071_151200_iw1/20221016", "scratch/t071_151200_iw1/20221016"⟩

/-- A concrete metadata-stage configuration. -/
def exMetaCfg : MetaRunConfig :=
  { dem := "dem.tif"
    dem_epsg := 32631
    geogrids := fun _ => exGeoGrid
    output_paths := fun _ => exOutPaths
    rdr2geo_params := exRdr2geoParams
    threshold := 1/100000000
    numiter := 25
    lines_per_block := 1000
    bursts := [exBurstVV, exBurstVH] }

/-- Counterexample to C6 as stated: `s1_geocode_metadata.run` does not make
a single engine invocation per (burst, date) pair — for the single pair of
`exBurstVV` it invokes `geo.geocode` once per enabled layer, here twice; and
it does not iterate over the configured bursts: emptying `cfg.bursts` leaves
its behaviour unchanged. -/
theorem wrapper_single_call_cex :
    metaGeocodeCalls
        (s1_geocode_metadata_run exMetaCfg exBurstVV false).1 = ["x", "y"] ∧
    (metaGeocodeCalls
        (s1_geocode_metadata_run exMetaCfg exBurstVV false).1).length ≠ 1 ∧
    (s1_geocode_metadata_run { exMetaCfg with bursts := [] }
        exBurstVV false).1 =
      (s1_geocode_metadata_run exMetaCfg exBurstVV false).1 := by
  refine ⟨rfl, by decide, rfl⟩

/-- C6 (amended): geocode_slc iterates over the configured bursts and,
unless both metadata flags make it die on the broken nested metadata call,
makes exactly one engine invocation per burst; with both flags set and at
least one burst it stops in the first iteration with a `TypeError` after the
two directory creations and the nested rdr2geo run, before any engine call.
geocode_metadata processes only the burst passed to it explicitly — ignoring
the configured burst list — and invokes the geocode engine method once per
enabled metadata layer, not once per (burst, date) pair. -/
theorem wrapper_iteration :
    (∀ (check_eap : Nat → Bool) (cfg : GeoRunConfig),
        cfg.rdr2geo_enabled = false ∨ cfg.geocode_metadata_layers = false →
        gsEngineCalls (s1_geocode_slc_run check_eap cfg).1.1 =
          cfg.bursts.map fun b =>
            (b.burst_id, b.date_str, b.polarization)) ∧
    (∀ (check_eap : Nat → Bool) (cfg : GeoRunConfig) (b : Burst)
        (rest : List Burst),
        cfg.rdr2geo_enabled = true → cfg.geocode_metadata_layers = true →
        cfg.bursts = b :: rest →
        (s1_geocode_slc_run check_eap cfg).1 =
          ([GSEvent.makedirs
              (cfg.product_path ++ "/" ++ b.burst_id ++ "/" ++ b.date_str),
            GSEvent.makedirs
              (cfg.scratch_path ++ "/" ++ b.burst_id ++ "/" ++ b.date_str),
            GSEvent.rdr2geoNested],
           some (PyError.typeError
             "run() missing 1 required positional argument: burst"))) ∧
    (∀ (cfg : MetaRunConfig) (burst : Burst) (fetch_from_scratch : Bool),
        metaGeocodeCalls
            (s1_geocode_metadata_run cfg burst fetch_from_scratch).1 =
          ((meta_layers cfg.rdr2geo_params).filter
              (fun layer => layer.2)).map (fun layer => layer.1)) ∧
    (∀ (cfg : MetaRunConfig) (burst : Burst) (fetch_from_scratch : Bool)
        (bs : List Burst),
        s1_geocode_metadata_run { cfg with bursts := bs } burst
            fetch_from_scratch =
          s1_geocode_metadata_run cfg burst fetch_from_scratch) :=
  ⟨gsEngineCalls_run, s1_geocode_slc_run_crash, metaGeocodeCalls_run,
   s1_geocode_metadata_run_ignores_bursts⟩

/-- Witness for C6 (amended): one engine call per polarization on the
completing configuration; on the crashing configuration the whole run is the
first burst's two directories, the nested rdr2geo run and the
`TypeError`. -/
theorem wrapper_iteration_witness :
    gsEngineCalls (s1_geocode_slc_run exCheckEap exGeoCfg).1.1 =
      exGeoCfg.bursts.map
        (fun b => (b.burst_id, b.date_str, b.polarization)) ∧
    (s1_geocode_slc_run exCheckEap exGeoCfgCrash).1 =
      ([GSEvent.makedirs "product/t071_151200_iw1/20221016",
        GSEvent.makedirs "scratch/t071_151200_iw1/20221016",
        GSEvent.rdr2geoNested],
       some (PyError.typeError
         "run() missing 1 required positional argument: burst")) :=
  ⟨wrapper_iteration.1 exCheckEap exGeoCfg (Or.inl rfl),
   by
    have h := wrapper_iteration.2.1 exCheckEap exGeoCfgCrash exBurstVV
      [exBurstVH] rfl rfl rfl
    simpa using h⟩

/-- C8: no stage mutates the GeoGrid map: in the state-passing embedding of
the geocode_slc burst loop and the geocode_metadata stage, the grid map
observed after the stage equals the one observed before it — the stages only
read grid fields. -/
theorem geogrid_not_mutated :
    (∀ (check_eap : Nat → Bool) (cfg : GeoRunConfig),
        (s1_geocode_slc_run check_eap cfg).2 = cfg.geogrids) ∧
    (∀ (cfg : MetaRunConfig) (burst : Burst) (fetch_from_scratch : Bool),
        (s1_geocode_metadata_run cfg burst fetch_from_scratch).2 =
          cfg.geogrids) :=
  ⟨fun check_eap cfg =>
     geocodeSlcLoop_geogrids check_eap cfg cfg.bursts cfg.geogrids,
   fun _ _ _ => rfl⟩

/-- A concrete LUT-producing burst: the engine methods return fixed LUTs. -/
def exLutBurst : LutBurst :=
  { bistatic_delay := fun _ _ => ⟨0, 0, 3, 5, [[1, 2]]⟩
    geometrical_and_steering_doppler := fun _ _ => ⟨0, 0, 7, 9, [[10, 20]]⟩
    az_fm_rate_mismatch_mitigation :=
      fun _ _ _ _ => ⟨0, 0, 11, 13, [[100, 200]]⟩ }

/-- A concrete file-existence oracle: exactly one DEM file exists. -/
def exPathExists : String → Bool := fun p => p == "existing_dem.tif"

/-- C9: `compute_geocoding_correction_luts` raises `ValueError` exactly when
`dem_path` is `None`; given a path, it raises `FileNotFoundError` exactly
when the file at `dem_path` exists; and it proceeds to the azimuth FM-rate
mismatch computation and returns a LUT pair exactly when the path is given
and the file does not exist. -/
theorem lut_error_conditions (burst : LutBurst)
    (path_exists : String → Bool) (rg_step : Nat) (az_step : Rat)
    (dem_path scratch_path : Option String) :
    ((∃ msg, compute_geocoding_correction_luts burst path_exists rg_step
          az_step dem_path scratch_path =
        Except.error (LutError.valueError msg)) ↔ dem_path = none) ∧
    (∀ dp, dem_path = some dp →
      ((∃ msg, compute_geocoding_correction_luts burst path_exists rg_step
            az_step dem_path scratch_path =
          Except.error (LutError.fileNotFoundError msg)) ↔
        path_exists dp = true)) ∧
    ((∃ out, compute_geocoding_correction_luts burst path_exists rg_step
          az_step dem_path scratch_path = Except.ok out) ↔
      ∃ dp, dem_path = some dp ∧ path_exists dp = false) := by
  cases dem_path with
  | none => simp [compute_geocoding_correction_luts]
  | some dp =>
    by_cases hp : path_exists dp <;>
      simp [compute_geocoding_correction_luts, hp]

/-- Witness for C9 at concrete inputs: a `None` DEM raises `ValueError`, an
existing DEM file raises `FileNotFoundError`, a missing DEM file yields a
LUT pair. -/
theorem lut_error_conditions_witness :
    (∃ msg, compute_geocoding_correction_luts exLutBurst exPathExists 200
        (1/4) none none = Except.error (LutError.valueError msg)) ∧
    (∃ msg, compute_geocoding_correction_luts exLutBurst exPathExists 200
        (1/4) (some "existing_dem.tif") none =
      Except.error (LutError.fileNotFoundError msg)) ∧
    (∃ out, compute_geocoding_correction_luts exLutBurst exPathExists 200
        (1/4) (some "missing_dem.tif") none = Except.ok out) :=
  ⟨(lut_error_conditions exLutBurst exPathExists 200 (1/4) none
      none).1.mpr rfl,
   ((lut_error_conditions exLutBurst exPathExists 200 (1/4)
      (some "existing_dem.tif") none).2.1 "existing_dem.tif" rfl).mpr
      (by decide),
   (lut_error_conditions exLutBurst exPathExists 200 (1/4)
      (some "missing_dem.tif") none).2.2.mpr
      ⟨"missing_dem.tif", rfl, by decide⟩⟩

/-- C10: whenever `compute_geocoding_correction_luts` returns a pair, the
returned azimuth LUT's y spacing equals its x spacing — both are the
bistatic-delay LUT's x spacing, which the source passes for both spacing
arguments — regardless of any input LUT's y spacing. -/
theorem az_lut_spacing (burst : LutBurst) (path_exists : String → Bool)
    (rg_step : Nat) (az_step : Rat) (dem_path scratch_path : Option String)
    (rg_lut az_lut : LUT2d)
    (h : compute_geocoding_correction_luts burst path_exists rg_step az_step
        dem_path scratch_path = Except.ok (rg_lut, az_lut)) :
    az_lut.y_spacing = az_lut.x_spacing ∧
      az_lut.x_spacing = (burst.bistatic_delay rg_step az_step).x_spacing := by
  cases dem_path with
  | none => simp [compute_geocoding_correction_luts] at h
  | some dp =>
    by_cases hp : path_exists dp
    · simp [compute_geocoding_correction_luts, hp] at h
    · simp only [compute_geocoding_correction_luts, hp, if_false,
        Bool.false_eq_true, Except.ok.injEq, Prod.mk.injEq] at h
      obtain ⟨-, h2⟩ := h
      rw [← h2]
      exact ⟨rfl, rfl⟩

/-- Witness for C10: with a bistatic-delay LUT of x spacing 3 and y spacing
5, the returned azimuth LUT has both spacings 3. -/
theorem az_lut_spacing_witness :
    (⟨0, 0, 3, 3, [[101, 202]]⟩ : LUT2d).y_spacing =
        (⟨0, 0, 3, 3, [[101, 202]]⟩ : LUT2d).x_spacing ∧
      (⟨0, 0, 3, 3, [[101, 202]]⟩ : LUT2d).x_spacing =
        (exLutBurst.bistatic_delay 200 (1/4)).x_spacing :=
  az_lut_spacing exLutBurst exPathExists 200 (1/4)
    (some "missing_dem.tif") none ⟨0, 0, 7, 9, [[10, 20]]⟩
    ⟨0, 0, 3, 3, [[101, 202]]⟩ rfl

end Compass
